import Mathlib

/-!
Shallow embedding of the key-lifecycle core of the YubiKey sub-key network
scripts, translated from `examples/scripts/key-generation/generate_keys.py`
(class `KeyGenerator`) and `examples/scripts/deployment/deploy_yubikey_network.py`
(method `NetworkDeployer.setup_yubikey`).

The gnupg backend is modelled as explicit state (`GpgState`): the keyring's
key records, the list of master fingerprints produced so far, a counter used
to mint fresh key ids, a boolean oracle `genOk` standing for whether the gpg
backend succeeds, and a trace of the externally visible actions the code
performs (gpg commands issued, generation calls entered, hardware imports).
Fallible Python code that catches every exception and returns `None`/`False`
is translated to `Option`/`Bool` results.
-/

namespace YKN

/-- PIV pin policy, from `ykman.cli.piv.PIN_POLICY`. -/
inductive PinPolicy where
| never
| once
| always
deriving Repr, DecidableEq

/-- PIV touch policy, from `ykman.cli.piv.TOUCH_POLICY`. -/
inductive TouchPolicy where
| never
| cached
| always
deriving Repr, DecidableEq

/-- The argument bundle of a `yubikey.import_key` call (slot byte and the two
access policies), as assembled by `KeyGenerator.import_key_to_yubikey`. -/
structure ImportCall where
slot : Nat
pin_policy : PinPolicy
touch_policy : TouchPolicy
deriving Repr, DecidableEq

/-- An externally visible action performed by `KeyGenerator`: entering one of
the two sub-key generation methods with its arguments, issuing a gpg
command via `gpg.run_command`, or importing material into the hardware
token. -/
inductive Action where
| genDeviceCall (master entity : String)
| genRouterCall (master entity : String)
| gpgCommand (args : List String)
| ykImport (call : ImportCall)
deriving Repr, DecidableEq

/-- One key record of the gpg keyring, as read back by `gpg.list_keys`:
its key id, its uid strings, and whether it has been revoked. -/
structure KeyRec where
keyid : String
uids : List String
revoked : Bool
deriving Repr, DecidableEq

/-- The state of the gpg backend as seen by `KeyGenerator`, plus the oracle
`genOk` deciding whether the backend's generation commands succeed, and the
trace of actions performed so far. -/
structure GpgState where
keys : List KeyRec
masters : List String
counter : Nat
genOk : Bool
trace : List Action
deriving Repr, DecidableEq

/-- The key records not yet revoked. -/
def activeKeys (st : GpgState) : List KeyRec :=
st.keys.filter (fun k => !k.revoked)

/-- `charsStart needle hay`: `needle` is a prefix of `hay` (character lists). -/
def charsStart : List Char → List Char → Bool
| [], _ => true
| _ :: _, [] => false
| a :: as, b :: bs => a = b && charsStart as bs

/-- `charsFind needle hay`: `needle` occurs as a contiguous run in `hay`. -/
def charsFind (needle : List Char) : List Char → Bool
| [] => charsStart needle []
| b :: bs => charsStart needle (b :: bs) || charsFind needle bs

/-- Python's `needle in hay` on strings: substring containment. -/
def strContains (hay needle : String) : Bool :=
charsFind needle.toList hay.toList

/-- Helper for `split_ws`: walks the characters, `acc` holding the current
word reversed. -/
def split_ws_aux : List Char → List Char → List String
| [], acc => if acc.isEmpty then [] else [String.mk acc.reverse]
| c :: cs, acc =>
  if c.isWhitespace then
    if acc.isEmpty then split_ws_aux cs []
    else String.mk acc.reverse :: split_ws_aux cs []
  else split_ws_aux cs (c :: acc)

/-- Python's `str.split()` with no argument: split on whitespace runs,
dropping empty pieces. -/
def split_ws (s : String) : List String :=
split_ws_aux s.toList []

/-- The `key_params` dictionary built (but never handed to the backend) by the
two sub-key generation methods. -/
structure KeyParams where
keyType : String
keyCurve : String
keyUsage : String
nameReal : String
nameEmail : String
expireDate : String
deriving Repr, DecidableEq

/-- `key_params` of `KeyGenerator.generate_device_subkey` (lines 97-104). -/
def device_key_params (device_id : String) : KeyParams :=
{ keyType := "ECDSA"
, keyCurve := "nistp256"
, keyUsage := "sign,auth"
, nameReal := "Device " ++ device_id
, nameEmail := "device-" ++ device_id ++ "@yubikey-network.local"
, expireDate := "1y" }

/-- `key_params` of `KeyGenerator.generate_router_subkey` (lines 127-134). -/
def router_key_params (router_id : String) : KeyParams :=
{ keyType := "ECDSA"
, keyCurve := "nistp384"
, keyUsage := "sign,auth,encrypt"
, nameReal := "Router " ++ router_id
, nameEmail := "router-" ++ router_id ++ "@yubikey-network.local"
, expireDate := "6m" }

/-- `gpg.run_command('gpg', ['--quick-add-key', master, curve, usage, expire])`:
the command is always issued (recorded on the trace); on backend success
(`genOk`) a fresh sub-key id is minted and a new Active record is appended,
inheriting the uids of the key addressed as `master` (a gpg sub-key lives
under its primary key's uids); on failure (`returncode != 0`) the caller
receives nothing and the keyring is unchanged. -/
def run_quick_add (st : GpgState) (master curve usage expire : String) :
    Option String × GpgState :=
let st1 : GpgState :=
  { st with trace := st.trace ++ [Action.gpgCommand ["--quick-add-key", master, curve, usage, expire]] }
if st1.genOk then
  let newId := "K" ++ toString st1.counter
  let inherited := (((st1.keys.filter (fun k => k.keyid == master)).head?).map KeyRec.uids).getD []
  (some newId,
    { st1 with counter := st1.counter + 1
             , keys := st1.keys ++ [⟨newId, inherited, false⟩] })
else (none, st1)

/-- `KeyGenerator.generate_master_key` (lines 53-91): generates an RSA-4096
key via `gpg.gen_key`, exports the public half and a revocation certificate
(side files, not modelled), and returns the fingerprint; returns `None` on
any failure. There is no check against an already existing master key. -/
def generate_master_key (st : GpgState) : Option String × GpgState :=
if st.genOk then
  let fp := "K" ++ toString st.counter
  (some fp,
    { st with counter := st.counter + 1
            , masters := st.masters ++ [fp]
            , keys := st.keys ++ [⟨fp, ["YubiKey Network Master <master@yubikey-network.local>"], false⟩] })
else (none, st)

/-- `KeyGenerator.generate_device_subkey` (lines 93-121): builds the (unused)
`key_params`, then issues `gpg --quick-add-key master_key nistp256 sign 1y`.
The `device_id` is not validated and not passed to the backend command. -/
def generate_device_subkey (st : GpgState) (master_key device_id : String) :
    Option String × GpgState :=
let _params := device_key_params device_id
let st1 : GpgState := { st with trace := st.trace ++ [Action.genDeviceCall master_key device_id] }
run_quick_add st1 master_key "nistp256" "sign" "1y"

/-- `KeyGenerator.generate_router_subkey` (lines 123-151): builds the (unused)
`key_params`, then issues `gpg --quick-add-key master_key nistp384 sign 6m`.
The `router_id` is not validated and not passed to the backend command. -/
def generate_router_subkey (st : GpgState) (master_key router_id : String) :
    Option String × GpgState :=
let _params := router_key_params router_id
let st1 : GpgState := { st with trace := st.trace ++ [Action.genRouterCall master_key router_id] }
run_quick_add st1 master_key "nistp384" "sign" "6m"

/-- `KeyGenerator.import_key_to_yubikey` (lines 153-182): connects, exports
the key material, selects the PIV slot from `key_type` (`'device'` → 0x9a
authentication, `'router'` → 0x9c digital signature, anything else raises
`ValueError`, caught into `False`), then calls `yubikey.import_key` with
`PIN_POLICY.ONCE` and `TOUCH_POLICY.ALWAYS`. `connect_ok` models whether a
YubiKey is attached, `import_ok` whether the hardware import call succeeds;
the second component is the import call attempted (if any). -/
def import_key_to_yubikey (connect_ok import_ok : Bool) (key_id key_type : String) :
    Bool × Option ImportCall :=
if connect_ok then
  if key_type = "device" then
    (import_ok, some ⟨0x9a, PinPolicy.once, TouchPolicy.always⟩)
  else if key_type = "router" then
    (import_ok, some ⟨0x9c, PinPolicy.once, TouchPolicy.always⟩)
  else (false, none)
else (false, none)

/-- The fixed probe message of `KeyGenerator.verify_key` (line 188). -/
def test_data : String := "Test message for key verification"

/-- `KeyGenerator.verify_key` (lines 184-209): signs `test_data` with the
key (`sign` is the gpg signing oracle, `none` when signing fails or the key
cannot sign), then verifies the produced signature against the same
`test_data` (`verify_data` oracle). Every failure is caught and surfaces as
`false`, never as an exception. -/
def verify_key (sign : String → String → Option String)
    (verify_data : String → String → Bool) (key_id : String) : Bool :=
match sign key_id test_data with
| none => false
| some sig => verify_data sig test_data

/-- `gpg.run_command('gpg', ['--quick-revoke', key_id])` as issued by
`rotate_key` (lines 232-235): the command is recorded and the backend marks
the addressed key revoked. The Python code never inspects this command's
result. -/
def revoke_cmd (st : GpgState) (key_id : String) : GpgState :=
{ st with trace := st.trace ++ [Action.gpgCommand ["--quick-revoke", key_id]]
        , keys := st.keys.map (fun k => if k.keyid == key_id then { k with revoked := true } else k) }

/-- `KeyGenerator.rotate_key` (lines 211-242): looks the key up
(`list_keys(keys=[key_id])[0]`, an `IndexError` when absent is caught into
`None`), dispatches on substring containment of `'device'` then `'router'`
in the first uid, passes `uids[0].split()[1]` as the entity id (an
`IndexError` here is also caught into `None`, before any generation), runs
the matching generation method, and then unconditionally issues
`--quick-revoke` on the old key — also when generation returned `None`. -/
def rotate_key (st : GpgState) (key_id : String) : Option String × GpgState :=
match (st.keys.filter (fun k => k.keyid == key_id)).head? with
| none => (none, st)
| some key_info =>
  match key_info.uids.head? with
  | none => (none, st)
  | some uid0 =>
    if strContains uid0 "device" then
      match (split_ws uid0).get? 1 with
      | none => (none, st)
      | some ent =>
        ((generate_device_subkey st key_info.keyid ent).1,
          revoke_cmd (generate_device_subkey st key_info.keyid ent).2 key_id)
    else if strContains uid0 "router" then
      match (split_ws uid0).get? 1 with
      | none => (none, st)
      | some ent =>
        ((generate_router_subkey st key_info.keyid ent).1,
          revoke_cmd (generate_router_subkey st key_info.keyid ent).2 key_id)
    else (none, st)

/-- `NetworkDeployer.setup_yubikey` (deploy_yubikey_network.py lines 251-277):
the three `subprocess.run` command lines it issues, in order, given the
configured deployment PIN and PUK. -/
def setup_yubikey (pin puk : String) : List (List String) :=
[ ["ykman", "piv", "reset", "-f"]
, ["ykman", "piv", "access", "change-pin", "-P", "123456", "-n", pin]
, ["ykman", "piv", "access", "change-puk", "-p", "12345678", "-n", puk] ]

/-- Recognises a hardware-token import action on the trace. -/
def isYkImport : Action → Bool
| Action.ykImport _ => true
| _ => false

/-- Whether an action is a gpg command that carries `s` as one of its
arguments. -/
def actionHasArg (a : Action) (s : String) : Bool :=
match a with
| Action.gpgCommand args => args.contains s
| _ => false

/-- The usage argument (position 3) of a `--quick-add-key` gpg command
action. -/
def quick_add_usage : Action → Option String
| Action.gpgCommand args =>
  if args.head? = some "--quick-add-key" then args.get? 3 else none
| _ => none

/-- An empty keyring with the backend oracle set to `ok`. -/
def initState (ok : Bool) : GpgState :=
{ keys := [], masters := [], counter := 0, genOk := ok, trace := [] }

/-- Keyring holding a single Active device key `K0`, with a failing backend:
the scenario of a rotation whose replacement-key generation fails. -/
def c1_state : GpgState :=
{ keys := [⟨"K0", ["Device d1 <device-d1@yubikey-network.local>"], false⟩]
, masters := [], counter := 1, genOk := false, trace := [] }

/-- Keyring holding one master key `M0`, healthy backend. -/
def c2_state : GpgState :=
{ keys := [⟨"M0", ["YubiKey Network Master <master@yubikey-network.local>"], false⟩]
, masters := ["M0"], counter := 1, genOk := true, trace := [] }

/-- Keyring holding a single Active device key `K0`, healthy backend: the
scenario of a fully successful rotation. -/
def c3_state : GpgState :=
{ keys := [⟨"K0", ["Device d1 <device-d1@yubikey-network.local>"], false⟩]
, masters := [], counter := 1, genOk := true, trace := [] }

/-- Keyring holding a single Active router key `K0` whose entity id contains
the substring `device` (so its uid contains both `device` and `router`). -/
def c10_state : GpgState :=
{ keys := [⟨"K0", ["Router rtr-device <router-rtr-device@yubikey-network.local>"], false⟩]
, masters := [], counter := 5, genOk := true, trace := [] }

theorem run_quick_add_trace (st : GpgState) (m c u e : String) :
    (run_quick_add st m c u e).2.trace
      = st.trace ++ [Action.gpgCommand ["--quick-add-key", m, c, u, e]] := by
  unfold run_quick_add
  by_cases h : st.genOk <;> simp [h]

theorem run_quick_add_isSome (st : GpgState) (m c u e : String) :
    (run_quick_add st m c u e).1.isSome = st.genOk := by
  unfold run_quick_add
  by_cases h : st.genOk <;> simp [h]

theorem gen_device_trace (st : GpgState) (m i : String) :
    (generate_device_subkey st m i).2.trace
      = st.trace ++ [Action.genDeviceCall m i,
          Action.gpgCommand ["--quick-add-key", m, "nistp256", "sign", "1y"]] := by
  unfold generate_device_subkey
  rw [run_quick_add_trace]
  simp

theorem gen_router_trace (st : GpgState) (m i : String) :
    (generate_router_subkey st m i).2.trace
      = st.trace ++ [Action.genRouterCall m i,
          Action.gpgCommand ["--quick-add-key", m, "nistp384", "sign", "6m"]] := by
  unfold generate_router_subkey
  rw [run_quick_add_trace]
  simp

/-- C1: an entity with exactly one Active SubKey is left with zero Active
keys by `rotate_key` when the generation of the replacement key fails: the
old key is revoked even though no new key was recorded. Evaluated at the
concrete failing input `c1_state` (one Active device key `K0`, failing
backend): the rotation returns no new key id, yet afterwards no Active key
remains. -/
theorem rotate_key_downtime_bug :
    (activeKeys c1_state).length = 1 ∧
    (rotate_key c1_state "K0").1 = none ∧
    (activeKeys (rotate_key c1_state "K0").2).length = 0 :=
  ⟨rfl, rfl, rfl⟩

/-- C2 counterexample: the sub-key generation methods perform no entity-id
validation. From `c2_state` (one master `M0`, healthy backend), a first
`generate_device_subkey` for entity `dev-1` succeeds, a second call with the
same entity id succeeds as well (the claim says it fails with
`ConflictError`), and even an empty entity id is accepted. -/
theorem generate_subkey_duplicate_accepted :
    (generate_device_subkey c2_state "M0" "dev-1").1.isSome = true ∧
    (generate_device_subkey (generate_device_subkey c2_state "M0" "dev-1").2 "M0" "dev-1").1.isSome = true ∧
    (generate_device_subkey c2_state "M0" "").1.isSome = true :=
  ⟨rfl, rfl, rfl⟩

/-- C2 amended: `generate_device_subkey` and `generate_router_subkey`
validate nothing about the caller-supplied entity id — success coincides
with backend success, for every state and every entity id (empty or
duplicate included); no `ConflictError` exists in the code. -/
theorem generate_subkey_no_validation (st : GpgState) (m i : String) :
    (generate_device_subkey st m i).1.isSome = st.genOk ∧
    (generate_router_subkey st m i).1.isSome = st.genOk := by
  constructor
  · unfold generate_device_subkey
    rw [run_quick_add_isSome]
  · unfold generate_router_subkey
    rw [run_quick_add_isSome]

/-- C3 counterexample: a fully successful rotation (`c3_state`, healthy
backend, Active device key `K0`) returns a new key id but performs no
hardware-token import at all — its trace contains no `ykImport` action, so
the slot is not re-bound to the new SubKey. -/
theorem rotate_key_no_import_cx :
    (rotate_key c3_state "K0").1.isSome = true ∧
    ((rotate_key c3_state "K0").2.trace.any isYkImport) = false :=
  ⟨rfl, rfl⟩

/-- C3 amended: `rotate_key` never performs a hardware-token import: for
every state and key id, the trace after a rotation contains a `ykImport`
action only if one was already there before. -/
theorem rotate_key_no_hw_import (st : GpgState) (kid : String) :
    ((rotate_key st kid).2.trace.any isYkImport) = (st.trace.any isYkImport) := by
  unfold rotate_key
  split
  · rfl
  · split
    · rfl
    · split
      · split
        · rfl
        · simp [revoke_cmd, gen_device_trace, isYkImport, List.any_append]
      · split
        · split
          · rfl
          · simp [revoke_cmd, gen_router_trace, isYkImport, List.any_append]
        · rfl

/-- C4 counterexample: the `key_params` usage fields match the policy table,
but the usage actually passed to the backend does not — neither `auth` nor
`encrypt` appears in any gpg command issued by a device or router
generation from the empty keyring with master id `M0`. -/
theorem generate_subkey_usage_cx :
    (device_key_params "d1").keyUsage = "sign,auth" ∧
    ((generate_device_subkey (initState true) "M0" "d1").2.trace.any
        (fun a => actionHasArg a "auth")) = false ∧
    (router_key_params "r1").keyUsage = "sign,auth,encrypt" ∧
    ((generate_router_subkey (initState true) "M0" "r1").2.trace.any
        (fun a => actionHasArg a "auth" || actionHasArg a "encrypt")) = false :=
  ⟨rfl, rfl, rfl, rfl⟩

/-- C4 amended: the `key_params` dictionaries list the policy table's usage
sets (`sign,auth` for a Device key, `sign,auth,encrypt` for a Router key)
but are never handed to the backend; the `--quick-add-key` command actually
issued requests usage `sign` only, for both entity classes, on every state
and input. -/
theorem generate_subkey_usage_sign_only (st : GpgState) (m i : String) :
    (device_key_params i).keyUsage = "sign,auth" ∧
    (router_key_params i).keyUsage = "sign,auth,encrypt" ∧
    ((generate_device_subkey st m i).2.trace.getLast?).bind quick_add_usage = some "sign" ∧
    ((generate_router_subkey st m i).2.trace.getLast?).bind quick_add_usage = some "sign" := by
  refine ⟨rfl, rfl, ?_, ?_⟩
  · rw [gen_device_trace]
    simp [quick_add_usage]
  · rw [gen_router_trace]
    simp [quick_add_usage]

/-- C5: algorithm and expiry are selected by entity class exactly per the
policy table — the backend command issued by a device generation requests
curve `nistp256` (256-bit elliptic curve) with expiry `1y`, and the one
issued by a router generation requests curve `nistp384` (384-bit elliptic
curve) with expiry `6m`, on every state and input. -/
theorem generate_subkey_algorithm_expiry (st : GpgState) (m i : String) :
    (generate_device_subkey st m i).2.trace
      = st.trace ++ [Action.genDeviceCall m i,
          Action.gpgCommand ["--quick-add-key", m, "nistp256", "sign", "1y"]] ∧
    (generate_router_subkey st m i).2.trace
      = st.trace ++ [Action.genRouterCall m i,
          Action.gpgCommand ["--quick-add-key", m, "nistp384", "sign", "6m"]] :=
  ⟨gen_device_trace st m i, gen_router_trace st m i⟩

/-- C6: every import call attempted by `import_key_to_yubikey` carries
`PinPolicy.once` and `TouchPolicy.always`, and its slot is fixed by the key
type: 0x9a (PIV authentication) for `device`, 0x9c (PIV digital signature)
for `router`; no other key type ever produces an import call. -/
theorem import_key_to_yubikey_slot_policy (co io : Bool) (kid kt : String)
    (c : ImportCall) (h : (import_key_to_yubikey co io kid kt).2 = some c) :
    c.pin_policy = PinPolicy.once ∧ c.touch_policy = TouchPolicy.always ∧
    ((kt = "device" ∧ c.slot = 0x9a) ∨ (kt = "router" ∧ c.slot = 0x9c)) := by
  unfold import_key_to_yubikey at h
  by_cases hco : co
  · by_cases hd : kt = "device"
    · simp [hco, hd] at h
      subst h
      exact ⟨rfl, rfl, Or.inl ⟨hd, rfl⟩⟩
    · by_cases hr : kt = "router"
      · simp [hco, hd, hr] at h
        subst h
        exact ⟨rfl, rfl, Or.inr ⟨hr, rfl⟩⟩
      · simp [hco, hd, hr] at h
  · simp [hco] at h

/-- Witness for C6, at `key_type = "device"` on an attached token. -/
theorem import_key_to_yubikey_slot_policy_witness :
    (⟨0x9a, PinPolicy.once, TouchPolicy.always⟩ : ImportCall).pin_policy = PinPolicy.once ∧
    (⟨0x9a, PinPolicy.once, TouchPolicy.always⟩ : ImportCall).touch_policy = TouchPolicy.always ∧
    (("device" = "device" ∧ (⟨0x9a, PinPolicy.once, TouchPolicy.always⟩ : ImportCall).slot = 0x9a) ∨
     ("device" = "router" ∧ (⟨0x9a, PinPolicy.once, TouchPolicy.always⟩ : ImportCall).slot = 0x9c)) :=
  import_key_to_yubikey_slot_policy true true "K1" "device"
    ⟨0x9a, PinPolicy.once, TouchPolicy.always⟩ rfl

/-- C7 counterexample: from the empty keyring with a healthy backend, a
first `generate_master_key` succeeds and a second call also succeeds,
leaving two master roots — the claimed `ConflictError` on an existing
master does not exist in the code. -/
theorem generate_master_key_duplicate_root_cx :
    (generate_master_key (initState true)).1.isSome = true ∧
    (generate_master_key (generate_master_key (initState true)).2).1.isSome = true ∧
    (generate_master_key (generate_master_key (initState true)).2).2.masters.length = 2 :=
  ⟨rfl, rfl, rfl⟩

/-- C7 amended: `generate_master_key` persists one new master per successful
call but never checks for an existing one: success coincides with backend
success on every state, a second call succeeds just as the first, and two
consecutive calls on a healthy backend add two roots. -/
theorem generate_master_key_unchecked (st : GpgState) :
    ((generate_master_key st).1.isSome = st.genOk) ∧
    ((generate_master_key (generate_master_key st).2).1.isSome = st.genOk) ∧
    ((generate_master_key (generate_master_key st).2).2.masters.length
        = st.masters.length + (if st.genOk then 2 else 0)) := by
  by_cases h : st.genOk <;> simp [generate_master_key, h]

/-- C8: `verify_key` signs the fixed probe message `test_data` and verifies
the produced signature against that same message, returning `true` exactly
when a signature is produced and verifies, and `false` (never an unhandled
exception — the result type is total) when signing or verification fails. -/
theorem verify_key_probe_roundtrip (sign : String → String → Option String)
    (verify_data : String → String → Bool) (key_id : String) :
    verify_key sign verify_data key_id = true ↔
      ∃ s, sign key_id test_data = some s ∧ verify_data s test_data = true := by
  unfold verify_key
  cases h : sign key_id test_data with
  | none => simp [h]
  | some s => simp [h]

/-- C9: hardware provisioning does rely on factory defaults — for every
configured deployment PIN and PUK, the command sequence issued by
`setup_yubikey` contains the well-known factory-default PIN `123456` and
factory-default PUK `12345678` (passed as the current credentials to
`change-pin`/`change-puk`). -/
theorem setup_yubikey_factory_defaults (pin puk : String) :
    (∃ cmd ∈ setup_yubikey pin puk, "123456" ∈ cmd) ∧
    (∃ cmd ∈ setup_yubikey pin puk, "12345678" ∈ cmd) := by
  constructor
  · exact ⟨["ykman", "piv", "access", "change-pin", "-P", "123456", "-n", pin],
      by simp [setup_yubikey], by simp⟩
  · exact ⟨["ykman", "piv", "access", "change-puk", "-p", "12345678", "-n", puk],
      by simp [setup_yubikey], by simp⟩

/-- C10: `rotate_key` dispatches on substring search over the key's first
uid, testing `device` before `router`: whenever the first uid contains
`device` (even if it also contains `router`) and has a second
whitespace-separated token, the rotation runs the device generation with
that token as entity id and then revokes the old key; when the uid contains
neither substring the rotation fails, returning no new key id and leaving
the state unchanged. -/
theorem rotate_key_dispatch (st : GpgState) (kid : String) (kinfo : KeyRec)
    (uid0 : String)
    (h1 : (st.keys.filter (fun k => k.keyid == kid)).head? = some kinfo)
    (h2 : kinfo.uids.head? = some uid0) :
    (∀ ent, strContains uid0 "device" = true → (split_ws uid0)[1]? = some ent →
        rotate_key st kid
          = ((generate_device_subkey st kinfo.keyid ent).1,
             revoke_cmd (generate_device_subkey st kinfo.keyid ent).2 kid)) ∧
    (strContains uid0 "device" = false → strContains uid0 "router" = false →
        rotate_key st kid = (none, st)) := by
  constructor
  · intro ent h3 h4
    unfold rotate_key
    simp [h1, h2, h3, h4]
  · intro h3 h5
    unfold rotate_key
    simp [h1, h2, h3, h5]

/-- Witness for C10, at a key whose uid contains both `device` and `router`
(a router whose entity id `rtr-device` contains `device`): the device
branch is taken with entity id `rtr-device`, the second token of the uid. -/
theorem rotate_key_dispatch_witness :
    rotate_key c10_state "K0"
      = ((generate_device_subkey c10_state "K0" "rtr-device").1,
         revoke_cmd (generate_device_subkey c10_state "K0" "rtr-device").2 "K0") :=
  (rotate_key_dispatch c10_state "K0"
      ⟨"K0", ["Router rtr-device <router-rtr-device@yubikey-network.local>"], false⟩
      "Router rtr-device <router-rtr-device@yubikey-network.local>" rfl rfl).1
    "rtr-device" rfl rfl

end YKN
